import Mathlib

/-
Verification of the employee create/update modal form
(src/src/app/emps/add-emps/page.tsx).

The component is shallowly embedded: the yup validation schema, the payload
object literal built in onSubmit, the endpoint selection, the mutation-outcome
effect and the select-population markup are translated into executable Lean
definitions, and the specified properties are proved about them.
-/

namespace TaskManager

/-- A JavaScript value as it appears in the payload object literal of
`onSubmit` (page.tsx lines 136-145): the spread fields are strings, while the
expression `!employeeData && data.password` evaluates either to a string
(create mode) or to the boolean `false` (update mode, since JavaScript `&&`
returns its falsy left operand). -/
inductive JsVal where
  | str : String → JsVal
  | bool : Bool → JsVal
deriving DecidableEq, Repr

/-- The form value type `EmployeeFormInputs` (page.tsx lines 51-61). The `id`
field is optional in TypeScript; the remaining fields are strings, as read
back from the registered HTML inputs. -/
structure EmployeeFormInputs where
  id : Option String
  name : String
  dob : String
  phone : String
  email : String
  password : String
  address : String
  department_id : String
  job_id : String
deriving DecidableEq, Repr

/-- The reference type `IDepartment` (page.tsx lines 34-39); the
`parent_department_id` field is a nullable self-reference. -/
inductive IDepartment where
  | mk (id : String) (name : String) (description : String)
      (parent_department_id : Option IDepartment)

/-- The `id` field of an `IDepartment`. -/
def IDepartment.id : IDepartment → String
  | .mk i _ _ _ => i

/-- The `name` field of an `IDepartment`. -/
def IDepartment.name : IDepartment → String
  | .mk _ n _ _ => n

/-- The reference type `IJob` (page.tsx lines 41-49). -/
structure IJob where
  id : String
  title : String
  grade_level : String
  description : String
  responsibilities : List String
  permissions : List String
  department : IDepartment

/-- The form state produced by resetting with empty default values (the
`defaultValues: employeeData || {}` branch with no employee record):
registered inputs read back as empty strings. -/
def emptyForm : EmployeeFormInputs :=
  { id := none, name := "", dob := "", phone := "", email := "", password := "",
    address := "", department_id := "", job_id := "" }

/-- The endpoint selection (page.tsx lines 100-102):
`employeeData ? "/emp/update/" + employeeData.id : "/emp/create"`. When the
record is present but its optional `id` is undefined, JavaScript template
interpolation renders the text "undefined". -/
def endpoint (employeeData : Option EmployeeFormInputs) : String :=
  match employeeData with
  | some e => "/emp/update/" ++ e.id.getD "undefined"
  | none => "/emp/create"

/-- Modelled from the spec: the `useCreateMutation` hook
(src/hooks/useCreateMutation, not present under src/) issues its POST request
to exactly the endpoint string it is configured with, per the spec sentence
that the mutation "issues a create (`POST /emp/create`) or update
(`POST /emp/update/{id}`) request depending on mode". -/
def mutationRequestTarget (endpointArg : String) : String := endpointArg

/-- The password entry of the payload: the JavaScript expression
`!employeeData && data.password` (page.tsx line 144). With a record present,
`!employeeData` is `false` and `&&` returns the boolean `false`; with no
record, `&&` returns the right operand, the entered password string. -/
def passwordPayload (employeeData : Option EmployeeFormInputs) (pw : String) : JsVal :=
  match employeeData with
  | some _ => JsVal.bool false
  | none => JsVal.str pw

/-- The payload object literal dispatched by `onSubmit` (page.tsx lines
136-145), as an association list in source order. Every key, including
"password", is always present in the object. -/
def mkPayload (employeeData : Option EmployeeFormInputs) (data : EmployeeFormInputs) :
    List (String × JsVal) :=
  [("name", JsVal.str data.name),
   ("dob", JsVal.str data.dob),
   ("phone", JsVal.str data.phone),
   ("email", JsVal.str data.email),
   ("address", JsVal.str data.address),
   ("department_id", JsVal.str data.department_id),
   ("job_id", JsVal.str data.job_id),
   ("password", passwordPayload employeeData data.password)]

/-- Lookup of a key in a payload object. -/
def payloadLookup (payload : List (String × JsVal)) (key : String) : Option JsVal :=
  (payload.find? (fun kv => kv.fst == key)).map (fun kv => kv.snd)

/-- The per-field error messages produced by the yup schema (page.tsx lines
17-32); `none` means the field passed. -/
structure FieldErrors where
  name : Option String
  dob : Option String
  phone : Option String
  email : Option String
  password : Option String
  address : Option String
  department_id : Option String
  job_id : Option String
deriving DecidableEq, Repr

/-- A `yup.string().required(msg)` rule on a string input: required rejects
the empty string (and the inputs, being registered HTML fields, always supply
strings, never undefined). -/
def validateRequired (msg : String) (s : String) : Option String :=
  if s = "" then some msg else none

/-- The dob rule `yup.date().required(...).typeError("Invalid date format")`,
parameterised by the external date parser of the yup library. A registered
HTML input always supplies a string; yup casts it, and any string that does
not parse as a date (the empty string included) fails the cast and yields the
typeError message. The required message fires only for undefined/null input,
which cannot occur here. -/
def validateDob (dateOk : String → Bool) (s : String) : Option String :=
  if dateOk s then none else some "Invalid date format"

/-- The email rule `yup.string().required("Email is required").email("Invalid
email format")`, parameterised by the email-format predicate of the yup
library: an empty string fails required; a non-empty string failing the
format test yields the format message. -/
def validateEmail (emailOk : String → Bool) (s : String) : Option String :=
  if s = "" then some "Email is required"
  else if emailOk s then none
  else some "Invalid email format"

/-- The password rule `yup.string()`: no constraint, every string passes. -/
def validatePassword (_s : String) : Option String := none

/-- The whole schema (page.tsx lines 17-32) applied to the form values. -/
def validateForm (dateOk emailOk : String → Bool) (d : EmployeeFormInputs) : FieldErrors :=
  { name := validateRequired "Employee name is required" d.name,
    dob := validateDob dateOk d.dob,
    phone := validateRequired "Phone number is required" d.phone,
    email := validateEmail emailOk d.email,
    password := validatePassword d.password,
    address := validateRequired "Address is required" d.address,
    department_id := validateRequired "Department ID is required" d.department_id,
    job_id := validateRequired "Job ID is required" d.job_id }

/-- Whether validation passes for every field. -/
def formValid (dateOk emailOk : String → Bool) (d : EmployeeFormInputs) : Bool :=
  let e := validateForm dateOk emailOk d
  e.name.isNone && e.dob.isNone && e.phone.isNone && e.email.isNone &&
    e.password.isNone && e.address.isNone && e.department_id.isNone && e.job_id.isNone

/-- The synchronous side effects a submit can perform: setting the feedback
message state, dispatching the mutation (endpoint and payload), starting a
repeating `setInterval` timer with the given period in milliseconds whose
callback is the `onClose` prop, and clearing such a timer. The component
never calls `clearInterval`; the constructor exists so that its absence is
expressible. -/
inductive Effect where
  | setFeedback : Option String → Effect
  | dispatchMutation : String → List (String × JsVal) → Effect
  | startInterval : Nat → Effect
  | clearTimer : Effect
deriving DecidableEq, Repr

/-- The body of `onSubmit` (page.tsx lines 134-148), in source order:
`setFeedbackMessage(null)`, then `addEmployee({...})`, then
`setInterval(onClose, 3000)`. -/
def onSubmit (employeeData : Option EmployeeFormInputs) (data : EmployeeFormInputs) :
    List Effect :=
  [Effect.setFeedback none,
   Effect.dispatchMutation (endpoint employeeData) (mkPayload employeeData data),
   Effect.startInterval 3000]

/-- The `handleSubmit(onSubmit)` wiring of the form library (page.tsx line
199 with the resolver of lines 74-82): the resolver runs the schema; the
callback is invoked, producing its effects, only when every field passes;
otherwise the per-field errors are exposed and no effect is performed. -/
def handleSubmit (dateOk emailOk : String → Bool) (employeeData : Option EmployeeFormInputs)
    (data : EmployeeFormInputs) : FieldErrors × List Effect :=
  if formValid dateOk emailOk data then
    (validateForm dateOk emailOk data, onSubmit employeeData data)
  else
    (validateForm dateOk emailOk data, [])

/-- Whether an effect list contains a mutation dispatch. -/
def dispatches (effs : List Effect) : Bool :=
  effs.any (fun e =>
    match e with
    | Effect.dispatchMutation _ _ => true
    | _ => false)

/-- The component state touched by the mutation-outcome effect: the form
values, the inline feedback message, and the snackbar configuration. -/
structure ComponentState where
  formData : EmployeeFormInputs
  feedbackMessage : Option String
  snackbarOpen : Bool
  snackbarMessage : String
  snackbarSeverity : String
deriving DecidableEq, Repr

/-- The `reset()` call (page.tsx line 125): the form returns to its default
values, `employeeData || {}` — the record in update mode, empty fields in
create mode. -/
def resetForm (employeeData : Option EmployeeFormInputs) : EmployeeFormInputs :=
  employeeData.getD emptyForm

/-- The outcome of the mutation as exposed by the hook flags
`isSuccessEmployee` / `isErrorEmployee`; the error carries the JavaScript
string conversion `errorEmployee + ""` of the error value. -/
inductive MutationOutcome where
  | success : MutationOutcome
  | error : String → MutationOutcome
  | idle : MutationOutcome

/-- The generic fallback feedback text (page.tsx line 129). -/
def fallbackMessage : String := "Failed to process the request. Please try again."

/-- JavaScript `x || y` on strings: the empty string is the only falsy
string. -/
def jsOrString (x y : String) : String := if x = "" then y else x

/-- The mutation-outcome `useEffect` (page.tsx lines 116-132): on success,
open the snackbar with a mode-dependent success message and reset the form;
on error, set the feedback message to `errorEmployee + "" || fallback`;
otherwise do nothing. -/
def onMutationOutcome (employeeData : Option EmployeeFormInputs)
    (outcome : MutationOutcome) (st : ComponentState) : ComponentState :=
  match outcome with
  | MutationOutcome.success =>
      { st with
        snackbarOpen := true,
        snackbarMessage :=
          match employeeData with
          | some _ => "Employee updated successfully!"
          | none => "Employee created successfully!",
        snackbarSeverity := "success",
        formData := resetForm employeeData }
  | MutationOutcome.error errStr =>
      { st with feedbackMessage := some (jsOrString errStr fallbackMessage) }
  | MutationOutcome.idle => st

/-- Applying a synchronous effect to the component state; only the feedback
setter changes state visible here. -/
def applyEffect (st : ComponentState) (e : Effect) : ComponentState :=
  match e with
  | Effect.setFeedback m => { st with feedbackMessage := m }
  | _ => st

/-- Semantics of a `startInterval` effect: a repeating timer with period `p`
started at time `start` fires its callback at `start + p`, `start + 2 * p`,
and so on, until cleared. Other effects never fire. -/
def firesAt (e : Effect) (start t : Nat) : Prop :=
  match e with
  | Effect.startInterval p => 0 < p ∧ ∃ k : Nat, 1 ≤ k ∧ t = start + k * p
  | _ => False

/-- The option list of the department select (page.tsx lines 314-327): a
fixed placeholder with empty value, then, when the departments query has
data, one option per array item with value `dept.id` and label `dept.name`.
Each pair is (value, label). -/
def deptOptions (departments : Option (List IDepartment)) : List (String × String) :=
  ("", "Select a department") ::
    (match departments with
     | some ds => ds.map (fun d => (d.id, d.name))
     | none => [])

/-- The option list of the job select (page.tsx lines 333-346): a fixed
placeholder with empty value, then one option per array item with value
`job.id` and label `job.title`. -/
def jobOptions (jobs : Option (List IJob)) : List (String × String) :=
  ("", "Select a job title") ::
    (match jobs with
     | some js => js.map (fun j => (j.id, j.title))
     | none => [])

/-- A sample date parser for concrete evaluations. -/
def sampleDateOk : String → Bool := fun s => s == "1990-01-01"

/-- A sample email-format predicate for concrete evaluations. -/
def sampleEmailOk : String → Bool := fun s => s == "a@b.com"

/-- A sample fully valid form input in create mode. -/
def sampleData : EmployeeFormInputs :=
  { id := none, name := "Alice", dob := "1990-01-01", phone := "123456",
    email := "a@b.com", password := "secret", address := "Main St",
    department_id := "d1", job_id := "j1" }

/-- A sample existing employee record, used as `employeeData` in update
mode. -/
def sampleEmployee : EmployeeFormInputs :=
  { id := some "42", name := "Bob", dob := "1990-01-01", phone := "98765",
    email := "a@b.com", password := "oldpw", address := "Side St",
    department_id := "d2", job_id := "j2" }

/-- A sample component state. -/
def sampleState : ComponentState :=
  { formData := sampleData, feedbackMessage := some "old error",
    snackbarOpen := false, snackbarMessage := "", snackbarSeverity := "success" }

/-- Helper: the password entry of any payload is exactly the value of the
JavaScript expression modelled by `passwordPayload`. -/
theorem payloadLookup_password (ed : Option EmployeeFormInputs) (d : EmployeeFormInputs) :
    payloadLookup (mkPayload ed d) "password" = some (passwordPayload ed d.password) := by
  rfl

/-- C1 counterexample: the claim says an update-mode submit sends no password
in the payload, but at a concrete update-mode input the payload does contain
a "password" key — its value is the boolean `false` produced by
`!employeeData && data.password`. -/
theorem c1_counterexample :
    payloadLookup (mkPayload (some sampleEmployee) sampleData) "password" =
      some (JsVal.bool false) ∧
    payloadLookup (mkPayload (some sampleEmployee) sampleData) "password" ≠ none := by
  constructor
  · rfl
  · simp [payloadLookup, mkPayload, passwordPayload]

/-- C1 (amended): in create mode the entered password string is included in
the payload; in update mode the payload still contains a "password" key, but
its value is the boolean `false` — the entered password is never sent. -/
theorem c1_password_by_mode (data : EmployeeFormInputs) :
    payloadLookup (mkPayload none data) "password" = some (JsVal.str data.password) ∧
    ∀ e : EmployeeFormInputs,
      payloadLookup (mkPayload (some e) data) "password" = some (JsVal.bool false) := by
  refine ⟨payloadLookup_password none data, fun e => payloadLookup_password (some e) data⟩

/-- C4: on every mutation failure the feedback message becomes the string
conversion of the error when that text is non-empty, and the generic
fallback when the error text is empty (JavaScript `errorEmployee + "" ||
fallback`). -/
theorem c4_error_feedback (employeeData : Option EmployeeFormInputs)
    (st : ComponentState) (errStr : String) :
    (onMutationOutcome employeeData (MutationOutcome.error errStr) st).feedbackMessage =
      some (if errStr = "" then fallbackMessage else errStr) := by
  rfl

/-- C5: the endpoint is a pure function of `employeeData`: with no record it
is the create endpoint, and with a record whose id is "42" it is the update
endpoint for id "42"; the mutation request targets exactly that endpoint. -/
theorem c5_endpoint (e : EmployeeFormInputs) (h : e.id = some "42") :
    endpoint none = "/emp/create" ∧
    endpoint (some e) = "/emp/update/42" ∧
    mutationRequestTarget (endpoint none) = "/emp/create" ∧
    mutationRequestTarget (endpoint (some e)) = "/emp/update/42" := by
  simp [endpoint, mutationRequestTarget, h]

/-- C5 witness: the concrete record `sampleEmployee` has id "42" and the
conclusions of `c5_endpoint` hold for it. -/
theorem c5_endpoint_witness :
    sampleEmployee.id = some "42" ∧
    (endpoint none = "/emp/create" ∧
     endpoint (some sampleEmployee) = "/emp/update/42" ∧
     mutationRequestTarget (endpoint none) = "/emp/create" ∧
     mutationRequestTarget (endpoint (some sampleEmployee)) = "/emp/update/42") :=
  ⟨rfl, c5_endpoint sampleEmployee rfl⟩

/-- C6: on mutation success the form resets to its default values (empty in
create mode) and the snackbar opens with severity success; on mutation
failure the form values are untouched, the snackbar is untouched, and the
inline feedback message is set to the error text (or fallback). -/
theorem c6_outcome_effects (employeeData : Option EmployeeFormInputs)
    (st : ComponentState) (errStr : String) :
    (onMutationOutcome employeeData MutationOutcome.success st).formData =
      resetForm employeeData ∧
    (onMutationOutcome none MutationOutcome.success st).formData = emptyForm ∧
    (onMutationOutcome employeeData MutationOutcome.success st).snackbarOpen = true ∧
    (onMutationOutcome employeeData MutationOutcome.success st).snackbarSeverity =
      "success" ∧
    (onMutationOutcome employeeData (MutationOutcome.error errStr) st).formData =
      st.formData ∧
    (onMutationOutcome employeeData (MutationOutcome.error errStr) st).snackbarOpen =
      st.snackbarOpen ∧
    (onMutationOutcome employeeData (MutationOutcome.error errStr) st).feedbackMessage =
      some (jsOrString errStr fallbackMessage) := by
  refine ⟨rfl, rfl, rfl, rfl, rfl, rfl, rfl⟩

/-- C7: for every array returned by the departments fetch and every array
returned by the job-titles fetch, the selects hold the fixed placeholder
followed by exactly one option per array item, whose value is the item id
and whose label is the item name (departments) or title (jobs). -/
theorem c7_select_options (ds : List IDepartment) (js : List IJob) :
    deptOptions (some ds) =
      ("", "Select a department") :: ds.map (fun d => (d.id, d.name)) ∧
    jobOptions (some js) =
      ("", "Select a job title") :: js.map (fun j => (j.id, j.title)) ∧
    (deptOptions (some ds)).length = ds.length + 1 ∧
    (jobOptions (some js)).length = js.length + 1 := by
  refine ⟨rfl, rfl, ?_, ?_⟩ <;> simp [deptOptions, jobOptions]

/-- Helper: validation passes exactly when every required field is non-empty,
the dob parses, and the email is non-empty and well-formed, provided the date
parser rejects the empty string. -/
theorem formValid_eq_true_iff (dateOk emailOk : String → Bool) (hdate : dateOk "" = false)
    (d : EmployeeFormInputs) :
    formValid dateOk emailOk d = true ↔
      (d.name ≠ "" ∧ d.dob ≠ "" ∧ dateOk d.dob = true ∧ d.phone ≠ "" ∧
       d.email ≠ "" ∧ emailOk d.email = true ∧ d.address ≠ "" ∧
       d.department_id ≠ "" ∧ d.job_id ≠ "") := by
  have hdob : dateOk d.dob = true → d.dob ≠ "" := by
    intro hok he
    rw [he, hdate] at hok
    exact Bool.noConfusion hok
  simp only [formValid, validateForm, validateRequired, validateDob, validateEmail,
    validatePassword, Bool.and_eq_true, Option.isNone_iff_eq_none, ite_eq_iff,
    reduceCtorEq, and_false, false_or, or_false, and_true, true_and, not_false_iff]
  tauto

/-- C3: the mutation dispatch fires exactly when all of name, dob, phone,
email, address, department_id and job_id are non-empty, the dob parses as a
date, and the email matches the email format; each failing rule yields the
specific message of that field, a failing submit produces no dispatch, and
the password rule never produces an error. -/
theorem c3_validation_gate (dateOk emailOk : String → Bool) (hdate : dateOk "" = false)
    (employeeData : Option EmployeeFormInputs) (data : EmployeeFormInputs) :
    (dispatches (handleSubmit dateOk emailOk employeeData data).2 = true ↔
      (data.name ≠ "" ∧ data.dob ≠ "" ∧ dateOk data.dob = true ∧ data.phone ≠ "" ∧
       data.email ≠ "" ∧ emailOk data.email = true ∧ data.address ≠ "" ∧
       data.department_id ≠ "" ∧ data.job_id ≠ "")) ∧
    ((validateForm dateOk emailOk data).name = some "Employee name is required" ↔
      data.name = "") ∧
    ((validateForm dateOk emailOk data).dob = some "Invalid date format" ↔
      dateOk data.dob = false) ∧
    ((validateForm dateOk emailOk data).phone = some "Phone number is required" ↔
      data.phone = "") ∧
    ((validateForm dateOk emailOk data).email = some "Email is required" ↔
      data.email = "") ∧
    ((validateForm dateOk emailOk data).email = some "Invalid email format" ↔
      (data.email ≠ "" ∧ emailOk data.email = false)) ∧
    ((validateForm dateOk emailOk data).address = some "Address is required" ↔
      data.address = "") ∧
    ((validateForm dateOk emailOk data).department_id = some "Department ID is required" ↔
      data.department_id = "") ∧
    ((validateForm dateOk emailOk data).job_id = some "Job ID is required" ↔
      data.job_id = "") ∧
    (validateForm dateOk emailOk data).password = none := by
  refine ⟨?_, ?_, ?_, ?_, ?_, ?_, ?_, ?_, ?_, rfl⟩
  · rw [← formValid_eq_true_iff dateOk emailOk hdate data]
    unfold handleSubmit
    by_cases hv : formValid dateOk emailOk data = true
    · simp [hv, dispatches, onSubmit]
    · simp [hv, dispatches]
  · simp [validateForm, validateRequired, ite_eq_iff]
  · by_cases hd : dateOk data.dob = true
    · simp [validateForm, validateDob, hd]
    · rw [Bool.not_eq_true] at hd
      simp [validateForm, validateDob, hd]
  · simp [validateForm, validateRequired, ite_eq_iff]
  · by_cases he : data.email = ""
    · simp [validateForm, validateEmail, he]
    · by_cases hok : emailOk data.email = true
      · simp [validateForm, validateEmail, he, hok]
      · rw [Bool.not_eq_true] at hok
        simp [validateForm, validateEmail, he, hok]
  · by_cases he : data.email = ""
    · simp [validateForm, validateEmail, he]
    · by_cases hok : emailOk data.email = true
      · simp [validateForm, validateEmail, he, hok]
      · rw [Bool.not_eq_true] at hok
        simp [validateForm, validateEmail, he, hok]
  · simp [validateForm, validateRequired, ite_eq_iff]
  · simp [validateForm, validateRequired, ite_eq_iff]
  · simp [validateForm, validateRequired, ite_eq_iff]

/-- C3 witness: at the concrete predicates and the concrete valid input, the
date parser rejects the empty string and every conclusion of
`c3_validation_gate` holds. -/
theorem c3_validation_gate_witness :
    sampleDateOk "" = false ∧
    ((dispatches (handleSubmit sampleDateOk sampleEmailOk none sampleData).2 = true ↔
      (sampleData.name ≠ "" ∧ sampleData.dob ≠ "" ∧ sampleDateOk sampleData.dob = true ∧
       sampleData.phone ≠ "" ∧ sampleData.email ≠ "" ∧
       sampleEmailOk sampleData.email = true ∧ sampleData.address ≠ "" ∧
       sampleData.department_id ≠ "" ∧ sampleData.job_id ≠ "")) ∧
     ((validateForm sampleDateOk sampleEmailOk sampleData).name =
        some "Employee name is required" ↔ sampleData.name = "") ∧
     ((validateForm sampleDateOk sampleEmailOk sampleData).dob =
        some "Invalid date format" ↔ sampleDateOk sampleData.dob = false) ∧
     ((validateForm sampleDateOk sampleEmailOk sampleData).phone =
        some "Phone number is required" ↔ sampleData.phone = "") ∧
     ((validateForm sampleDateOk sampleEmailOk sampleData).email =
        some "Email is required" ↔ sampleData.email = "") ∧
     ((validateForm sampleDateOk sampleEmailOk sampleData).email =
        some "Invalid email format" ↔
        (sampleData.email ≠ "" ∧ sampleEmailOk sampleData.email = false)) ∧
     ((validateForm sampleDateOk sampleEmailOk sampleData).address =
        some "Address is required" ↔ sampleData.address = "") ∧
     ((validateForm sampleDateOk sampleEmailOk sampleData).department_id =
        some "Department ID is required" ↔ sampleData.department_id = "") ∧
     ((validateForm sampleDateOk sampleEmailOk sampleData).job_id =
        some "Job ID is required" ↔ sampleData.job_id = "") ∧
     (validateForm sampleDateOk sampleEmailOk sampleData).password = none) :=
  ⟨by decide, c3_validation_gate sampleDateOk sampleEmailOk (by decide) none sampleData⟩

/-- C2: the code contradicts the claim at a failing input (a validated submit
whose mutation then fails): the repeating 3-second interval invoking the
close callback is already started by the submit itself, before the outcome is
known; after the error outcome the feedback shows the error text, yet the
interval fires at 3000 ms, 6000 ms, and so on, and no clearing effect ever
occurs. -/
theorem c2_code_bug_eval :
    Effect.startInterval 3000 ∈ (handleSubmit sampleDateOk sampleEmailOk none sampleData).2 ∧
    (onMutationOutcome none (MutationOutcome.error "Error: boom")
        sampleState).feedbackMessage = some "Error: boom" ∧
    firesAt (Effect.startInterval 3000) 0 3000 ∧
    firesAt (Effect.startInterval 3000) 0 6000 ∧
    Effect.clearTimer ∉ (handleSubmit sampleDateOk sampleEmailOk none sampleData).2 := by
  refine ⟨by decide, rfl, ⟨by norm_num, 1, le_refl 1, by norm_num⟩,
    ⟨by norm_num, 2, by norm_num, by norm_num⟩, by decide⟩

/-- C8: every submit that passes validation emits exactly the clear-feedback,
dispatch and start-interval effects in that order — the timer starts at
dispatch time, with the outcome not yet known; no clearing effect is ever
emitted, and the started 3000 ms interval fires at every positive multiple of
3000 ms after its start. -/
theorem c8_interval_on_every_submit (dateOk emailOk : String → Bool)
    (employeeData : Option EmployeeFormInputs) (data : EmployeeFormInputs)
    (h : formValid dateOk emailOk data = true) :
    (handleSubmit dateOk emailOk employeeData data).2 =
      [Effect.setFeedback none,
       Effect.dispatchMutation (endpoint employeeData) (mkPayload employeeData data),
       Effect.startInterval 3000] ∧
    Effect.startInterval 3000 ∈ (handleSubmit dateOk emailOk employeeData data).2 ∧
    Effect.clearTimer ∉ (handleSubmit dateOk emailOk employeeData data).2 ∧
    ∀ start k : Nat, 1 ≤ k →
      firesAt (Effect.startInterval 3000) start (start + k * 3000) := by
  have he : (handleSubmit dateOk emailOk employeeData data).2 = onSubmit employeeData data := by
    simp [handleSubmit, h]
  rw [he]
  refine ⟨rfl, ?_, ?_, ?_⟩
  · simp [onSubmit]
  · simp [onSubmit]
  · intro start k hk
    exact ⟨by norm_num, k, hk, rfl⟩

/-- C8 witness: the concrete valid input passes validation and the
conclusions of `c8_interval_on_every_submit` hold for it. -/
theorem c8_interval_on_every_submit_witness :
    formValid sampleDateOk sampleEmailOk sampleData = true ∧
    ((handleSubmit sampleDateOk sampleEmailOk none sampleData).2 =
      [Effect.setFeedback none,
       Effect.dispatchMutation (endpoint none) (mkPayload none sampleData),
       Effect.startInterval 3000] ∧
     Effect.startInterval 3000 ∈ (handleSubmit sampleDateOk sampleEmailOk none sampleData).2 ∧
     Effect.clearTimer ∉ (handleSubmit sampleDateOk sampleEmailOk none sampleData).2 ∧
     ∀ start k : Nat, 1 ≤ k →
       firesAt (Effect.startInterval 3000) start (start + k * 3000)) :=
  ⟨by decide, c8_interval_on_every_submit sampleDateOk sampleEmailOk none sampleData (by decide)⟩

/-- C9: the password rule accepts every string, so an empty password never
blocks submission — validity of the form does not depend on the password
value — and a create-mode payload built from an empty password carries the
empty string under the "password" key rather than omitting it. -/
theorem c9_password_never_blocks (dateOk emailOk : String → Bool)
    (data : EmployeeFormInputs) :
    (∀ pw : String, validatePassword pw = none) ∧
    (validateForm dateOk emailOk data).password = none ∧
    (∀ pw : String,
      formValid dateOk emailOk { data with password := pw } =
        formValid dateOk emailOk data) ∧
    payloadLookup (mkPayload none { data with password := "" }) "password" =
      some (JsVal.str "") := by
  exact ⟨fun pw => rfl, rfl, fun pw => rfl, rfl⟩

/-- C10: every submit that passes validation first sets the feedback message
to null and only then dispatches the mutation, so after the first effect the
feedback state is empty whatever it was before. -/
theorem c10_feedback_cleared (dateOk emailOk : String → Bool)
    (employeeData : Option EmployeeFormInputs) (data : EmployeeFormInputs)
    (h : formValid dateOk emailOk data = true) (st : ComponentState) :
    ∃ rest : List Effect,
      (handleSubmit dateOk emailOk employeeData data).2 =
        Effect.setFeedback none :: rest ∧
      Effect.dispatchMutation (endpoint employeeData) (mkPayload employeeData data) ∈ rest ∧
      (applyEffect st (Effect.setFeedback none)).feedbackMessage = none := by
  refine ⟨[Effect.dispatchMutation (endpoint employeeData) (mkPayload employeeData data),
           Effect.startInterval 3000], ?_, ?_, rfl⟩
  · simp [handleSubmit, h, onSubmit]
  · simp

/-- C10 witness: at the concrete valid input and a state holding a stale
error message, the submit effect list starts by clearing the feedback, and
applying that first effect empties the feedback state. -/
theorem c10_feedback_cleared_witness :
    formValid sampleDateOk sampleEmailOk sampleData = true ∧
    ∃ rest : List Effect,
      (handleSubmit sampleDateOk sampleEmailOk none sampleData).2 =
        Effect.setFeedback none :: rest ∧
      Effect.dispatchMutation (endpoint none) (mkPayload none sampleData) ∈ rest ∧
      (applyEffect sampleState (Effect.setFeedback none)).feedbackMessage = none :=
  ⟨by decide,
   c10_feedback_cleared sampleDateOk sampleEmailOk none sampleData (by decide) sampleState⟩

end TaskManager
